import Mathlib

/-!
Verification of the architecture teaching snippets: shallow embeddings of
the saga flow (`saga_example.py`), the hexagonal order service
(`hexagonal_example.py`), the CQRS read-model rebuild (`cqrs_example.py`)
and the agentic service router (`agentic_orchestration_example.py`),
with theorems settling the specification's claims about them.
-/

namespace Saga

/-- An order value as passed to the saga: `{"id": ..., "amount": ...}`. -/
structure Order where
  id : Nat
  amount : Int
deriving DecidableEq, Repr

/-- Observable events, one per `print` call in `saga_example.py`. -/
inductive Event where
  | processingPayment (id : Nat)
  | shippingOrder (id : Nat)
  | refundingOrder (id : Nat)
  | orderCompleted
  | orderFailed
deriving DecidableEq, Repr

/-- Final outcome of a saga run. -/
inductive Status where
  | Completed
  | Compensated
deriving DecidableEq, Repr

/-- `payment_service`: prints, then raises `"Payment failed"` when
`order['amount'] > 1000`, else returns `True`.  The emitted events and the
exception-or-return outcome are made explicit. -/
def payment_service (o : Order) : List Event × Except String Bool :=
  ([Event.processingPayment o.id],
    if o.amount > 1000 then Except.error "Payment failed" else Except.ok true)

/-- `shipping_service`: prints and returns `True`; it never raises. -/
def shipping_service (o : Order) : List Event × Except String Bool :=
  ([Event.shippingOrder o.id], Except.ok true)

/-- `compensate_payment`: prints the refund message. -/
def compensate_payment (o : Order) : List Event :=
  [Event.refundingOrder o.id]

/-- The body of the `try:` block of `process_order`: run `payment_service`,
then `shipping_service`, then print the success message; stop at the
first raised exception, returning the events emitted so far. -/
def try_body (o : Order) : List Event × Except String Unit :=
  let p := payment_service o
  match p.2 with
  | Except.error e => (p.1, Except.error e)
  | Except.ok _ =>
    let s := shipping_service o
    match s.2 with
    | Except.error e => (p.1 ++ s.1, Except.error e)
    | Except.ok _ => (p.1 ++ s.1 ++ [Event.orderCompleted], Except.ok ())

/-- The result of one saga run: final status, the full event trace, and
the names of the steps whose compensation action ran. -/
structure SagaResult where
  status : Status
  trace : List Event
  compensations : List String
deriving DecidableEq, Repr

/-- `process_order`: run the `try:` block; on any exception run
`compensate_payment` and print the failure message (the `except` clause),
otherwise the run completed.  The outer `Except` records whether an
exception escapes to the caller; the `except Exception:` clause catches
everything, so both branches return `Except.ok`. -/
def process_order (o : Order) : Except String SagaResult :=
  match try_body o with
  | (t, Except.ok _) =>
      Except.ok { status := Status.Completed, trace := t, compensations := [] }
  | (t, Except.error _) =>
      Except.ok { status := Status.Compensated,
                  trace := t ++ compensate_payment o ++ [Event.orderFailed],
                  compensations := ["payment"] }

/-- The names of the steps whose forward action succeeded on order `o`,
in the order the coordinator runs them ("payment", then "shipping"). -/
def stepSucceeded (o : Order) : List String :=
  match (payment_service o).2 with
  | Except.error _ => []
  | Except.ok _ =>
    match (shipping_service o).2 with
    | Except.error _ => ["payment"]
    | Except.ok _ => ["payment", "shipping"]

/-- `process_order` threaded through an explicit output log: the events a
run prints are appended to the log it starts from. -/
def process_order_log (o : Order) (log : List Event) :
    Except String SagaResult × List Event :=
  match process_order o with
  | Except.ok r => (Except.ok r, log ++ r.trace)
  | Except.error e => (Except.error e, log)

theorem process_order_of_gt {o : Order} (h : 1000 < o.amount) :
    process_order o = Except.ok
      { status := Status.Compensated,
        trace := [Event.processingPayment o.id, Event.refundingOrder o.id,
                  Event.orderFailed],
        compensations := ["payment"] } := by
  simp [process_order, try_body, payment_service, compensate_payment, if_pos h]

theorem process_order_of_le {o : Order} (h : o.amount ≤ 1000) :
    process_order o = Except.ok
      { status := Status.Completed,
        trace := [Event.processingPayment o.id, Event.shippingOrder o.id,
                  Event.orderCompleted],
        compensations := [] } := by
  simp [process_order, try_body, payment_service, shipping_service,
    if_neg (not_lt.mpr h)]

/-- C1 counterexample: on order `{id:1, amount:1500}` the payment step fails
before any step has succeeded, yet the compensation list is not empty —
`compensate_payment` runs (the `except` clause compensates unconditionally),
refuting "no compensation action runs". -/
theorem saga_C1_counterexample :
    (process_order ⟨1, 1500⟩).map SagaResult.compensations = Except.ok ["payment"] ∧
    (process_order ⟨1, 1500⟩).map SagaResult.compensations ≠ Except.ok [] := by
  refine ⟨rfl, ?_⟩
  intro h
  rw [show (process_order ⟨1, 1500⟩).map SagaResult.compensations
        = Except.ok ["payment"] from rfl] at h
  simp at h

/-- C1 amended: on order `{id:1, amount:1500}` the payment step fails before
any step has succeeded, and `process_order` finishes with status Compensated
— but with compensation list `["payment"]`, since the `except` clause runs
`compensate_payment` even though the payment step never succeeded. -/
theorem saga_C1 :
    process_order ⟨1, 1500⟩ = Except.ok
      { status := Status.Compensated,
        trace := [Event.processingPayment 1, Event.refundingOrder 1,
                  Event.orderFailed],
        compensations := ["payment"] } :=
  process_order_of_gt (by decide)

/-- C2 counterexample: on order `{id:1, amount:1500}` no step succeeded,
yet the compensation for the "payment" step runs — a compensation runs for
a step that did not succeed, refuting the invariant as stated. -/
theorem saga_C2_counterexample :
    stepSucceeded ⟨1, 1500⟩ = [] ∧
    (process_order ⟨1, 1500⟩).map SagaResult.compensations = Except.ok ["payment"] :=
  ⟨rfl, rfl⟩

/-- C2 amended: in every run, the compensation list is `["payment"]` exactly
when some step failed (i.e. the amount exceeds 1000) and empty otherwise; the
single compensation runs regardless of whether the payment step succeeded —
in the only reachable failure case the set of succeeded steps is empty. -/
theorem saga_C2 (o : Order) :
    (process_order o).map SagaResult.compensations =
      Except.ok (if 1000 < o.amount then ["payment"] else []) ∧
    (1000 < o.amount → stepSucceeded o = []) := by
  by_cases h : 1000 < o.amount
  · rw [process_order_of_gt h]
    refine ⟨by simp [Except.map, h], fun _ => ?_⟩
    simp [stepSucceeded, payment_service, if_pos h]
  · rw [process_order_of_le (not_lt.mp h)]
    exact ⟨by simp [Except.map, h], fun hc => absurd hc h⟩

/-- C2 witness: at order `{id:1, amount:1500}` no step succeeded. -/
theorem saga_C2_witness : stepSucceeded ⟨1, 1500⟩ = [] :=
  (saga_C2 ⟨1, 1500⟩).2 (by decide)

/-- C3: for every order whose amount is at most 1000 both steps succeed,
`process_order` finishes with status Completed and runs no compensation. -/
theorem saga_C3 (o : Order) (h : o.amount ≤ 1000) :
    process_order o = Except.ok
      { status := Status.Completed,
        trace := [Event.processingPayment o.id, Event.shippingOrder o.id,
                  Event.orderCompleted],
        compensations := [] } :=
  process_order_of_le h

/-- C3 witness: the spec's scenario `{id:1, amount:500}`. -/
theorem saga_C3_witness :
    process_order ⟨1, 500⟩ = Except.ok
      { status := Status.Completed,
        trace := [Event.processingPayment 1, Event.shippingOrder 1,
                  Event.orderCompleted],
        compensations := [] } :=
  saga_C3 ⟨1, 500⟩ (by decide)

/-- C4: whenever the payment step fails (amount above 1000), no shipping
event of any order id appears in the trace — `shipping_service` is never
invoked after the failure. -/
theorem saga_C4 (o : Order) (h : 1000 < o.amount) :
    ∀ r, process_order o = Except.ok r → ∀ i, Event.shippingOrder i ∉ r.trace := by
  intro r hr i
  rw [process_order_of_gt h] at hr
  injection hr with hr
  subst hr
  simp

/-- C4 witness: at order `{id:1, amount:1500}` the trace carries no
shipping event. -/
theorem saga_C4_witness :
    Event.shippingOrder 1 ∉
      (SagaResult.mk Status.Compensated
        [Event.processingPayment 1, Event.refundingOrder 1, Event.orderFailed]
        ["payment"]).trace :=
  saga_C4 ⟨1, 1500⟩ (by decide) _ rfl 1

/-- C5: `payment_service` raises `"Payment failed"` iff the amount exceeds
1000, and returns `True` for every amount at most 1000. -/
theorem saga_C5 (o : Order) :
    ((payment_service o).2 = Except.error "Payment failed" ↔ 1000 < o.amount) ∧
    (o.amount ≤ 1000 → (payment_service o).2 = Except.ok true) := by
  by_cases h : 1000 < o.amount
  · refine ⟨⟨fun _ => h, fun _ => ?_⟩, fun hle => absurd h (not_lt.mpr hle)⟩
    simp [payment_service, if_pos h]
  · refine ⟨⟨fun he => ?_, fun hgt => absurd hgt h⟩, fun _ => ?_⟩
    · simp [payment_service, if_neg h] at he
    · simp [payment_service, if_neg h]

/-- C5 witness: at amount 500 the payment step returns `True`. -/
theorem saga_C5_witness : (payment_service ⟨1, 500⟩).2 = Except.ok true :=
  (saga_C5 ⟨1, 500⟩).2 (by decide)

/-- C6: `process_order` always returns normally — the `except` clause
catches the step failure, so the result is `Except.ok` for every order,
with status Compensated and the compensation run exactly when a step
failed. -/
theorem saga_C6 (o : Order) :
    ∃ r, process_order o = Except.ok r ∧
      r.status = (if 1000 < o.amount then Status.Compensated else Status.Completed) ∧
      r.compensations = (if 1000 < o.amount then ["payment"] else []) := by
  by_cases h : 1000 < o.amount
  · exact ⟨_, process_order_of_gt h, by simp [h], by simp [h]⟩
  · exact ⟨_, process_order_of_le (not_lt.mp h), by simp [h], by simp [h]⟩

/-- C7: a saga run is a pure function of the order — its result does not
depend on the output accumulated by earlier runs, each run appends the same
trace, and running the same order twice yields the same result both times. -/
theorem saga_C7 (o : Order) (log : List Event) :
    (process_order_log o log).1 = (process_order_log o []).1 ∧
    (process_order_log o log).2 = log ++ (process_order_log o []).2 ∧
    (process_order_log o (process_order_log o log).2).1 =
      (process_order_log o log).1 := by
  cases hp : process_order o with
  | ok r => simp [process_order_log, hp]
  | error e => simp [process_order_log, hp]

end Saga

namespace Hex

/-- An order dictionary `{"id": ..., "quantity": ...}` from
`hexagonal_example.py`. -/
structure OrderData where
  id : Nat
  quantity : Int
deriving DecidableEq, Repr

/-- The in-memory adapter: its state is the `orders` list. -/
structure InMemoryOrderRepository where
  orders : List OrderData
deriving DecidableEq, Repr

/-- `InMemoryOrderRepository.save`: append the order to the list and
return it. -/
def InMemoryOrderRepository.save (repo : InMemoryOrderRepository)
    (order_data : OrderData) : InMemoryOrderRepository × OrderData :=
  ({ orders := repo.orders ++ [order_data] }, order_data)

/-- `OrderService.create_order`: raise `ValueError` when
`order_data['quantity'] <= 0`, otherwise delegate to the repository's
`save`.  The repository state is passed and returned explicitly. -/
def OrderService.create_order (repo : InMemoryOrderRepository)
    (order_data : OrderData) :
    Except String (InMemoryOrderRepository × OrderData) :=
  if order_data.quantity ≤ 0 then Except.error "Quantity must be positive"
  else Except.ok (repo.save order_data)

/-- C8: `create_order` raises `ValueError` exactly when the quantity is at
most zero (so quantity 0 is rejected), and for every positive quantity it
appends exactly that order to the repository list and returns the order
unchanged. -/
theorem hex_C8 (repo : InMemoryOrderRepository) (od : OrderData) :
    ((∃ e, OrderService.create_order repo od = Except.error e) ↔ od.quantity ≤ 0) ∧
    (0 < od.quantity →
      OrderService.create_order repo od =
        Except.ok (⟨repo.orders ++ [od]⟩, od)) := by
  by_cases h : od.quantity ≤ 0
  · refine ⟨⟨fun _ => h, fun _ => ⟨"Quantity must be positive", ?_⟩⟩,
      fun hq => absurd h (not_le.mpr hq)⟩
    simp [OrderService.create_order, if_pos h]
  · refine ⟨⟨fun he => ?_, fun hq => absurd hq h⟩, fun _ => ?_⟩
    · obtain ⟨e, he⟩ := he
      simp [OrderService.create_order, if_neg h] at he
    · simp [OrderService.create_order, if_neg h, InMemoryOrderRepository.save]

/-- C8 witness: the source's example order `{id:1, quantity:3}` is saved
into the empty repository. -/
theorem hex_C8_witness :
    OrderService.create_order ⟨[]⟩ ⟨1, 3⟩ =
      Except.ok (⟨[⟨1, 3⟩]⟩, ⟨1, 3⟩) :=
  (hex_C8 ⟨[]⟩ ⟨1, 3⟩).2 (by decide)

end Hex

namespace CQRS

/-- A write-model row `{"id": order_id, "item": item}` from
`cqrs_example.py`. -/
structure Order where
  id : Nat
  item : String
deriving DecidableEq, Repr

/-- `create_order`: append `{"id": order_id, "item": item}` to the
write-model list. -/
def create_order (orders : List Order) (order_id : Nat) (item : String) :
    List Order :=
  orders ++ [{ id := order_id, item := item }]

/-- One iteration of the rebuild loop:
`orders_by_item[order["item"]].append(order["id"])`, on the read model as a
total function with `defaultdict(list)` default `[]`. -/
def step (m : String → List Nat) (o : Order) : String → List Nat :=
  fun k => if k = o.item then m k ++ [o.id] else m k

/-- `update_read_model`: `orders_by_item.clear()` discards the previous
read model, then the loop folds `step` over the write-model list starting
from the empty read model. -/
def update_read_model (orders : List Order)
    (_prevReadModel : String → List Nat) : String → List Nat :=
  orders.foldl step (fun _ => [])

theorem foldl_step_apply (l : List Order) (m : String → List Nat) (k : String) :
    (l.foldl step m) k = m k ++ (l.filter fun o => o.item = k).map Order.id := by
  induction l generalizing m with
  | nil => simp
  | cons o t ih =>
    simp only [List.foldl_cons, ih, List.filter_cons]
    by_cases h : o.item = k
    · simp [step, h, List.append_assoc]
    · have h' : ¬ k = o.item := fun hk => h hk.symm
      simp [step, h, if_neg h']

/-- C9: after `update_read_model`, each item is mapped to exactly the ids of
the write-model orders with that item, in insertion order; and rebuilding
again without intervening writes leaves the read model unchanged. -/
theorem cqrs_C9 (orders : List Order) (m : String → List Nat) (item : String) :
    update_read_model orders m item =
      (orders.filter fun o => o.item = item).map Order.id ∧
    update_read_model orders (update_read_model orders m) =
      update_read_model orders m := by
  refine ⟨?_, rfl⟩
  simpa using foldl_step_apply orders (fun _ => []) item

end CQRS

namespace Agent

/-- Whether `needle` is an initial segment of `hs` (character lists). -/
def startsWith : List Char → List Char → Bool
  | _, [] => true
  | [], _ :: _ => false
  | a :: as, b :: bs => a == b && startsWith as bs

/-- Python's substring test `needle in hs`, on character lists. -/
def containsSub (hs needle : List Char) : Bool :=
  match hs with
  | [] => startsWith [] needle
  | c :: t => startsWith (c :: t) needle || containsSub t needle

/-- `service_router`: `"order" in intent` wins over `"payment" in intent`,
else `"Unknown"`. -/
def service_router (intent : List Char) : String :=
  if containsSub intent ("order".toList) then "Order Service"
  else if containsSub intent ("payment".toList) then "Payment Service"
  else "Unknown"

/-- `agent_handle_request`: route the input, print the routing line, and
return the chosen service (returned here with the printed line). -/
def agent_handle_request (user_input : List Char) : String × List String :=
  let service := service_router user_input
  (service, ["Routing to " ++ service])

/-- C10: an intent containing both `"order"` and `"payment"` routes to the
Order Service; one containing neither routes to `"Unknown"`; in particular
the example input `"Process my payment for order 123"` routes to the Order
Service. -/
theorem agent_C10 (intent : List Char) :
    (containsSub intent ("order".toList) = true →
      containsSub intent ("payment".toList) = true →
      service_router intent = "Order Service") ∧
    (containsSub intent ("order".toList) = false →
      containsSub intent ("payment".toList) = false →
      service_router intent = "Unknown") ∧
    (agent_handle_request ("Process my payment for order 123".toList)).1 =
      "Order Service" := by
  refine ⟨fun h1 _ => ?_, fun h1 h2 => ?_, ?_⟩
  · unfold service_router
    rw [h1]
    simp
  · unfold service_router
    rw [h1, h2]
    simp
  · rfl

/-- C10 witness: an intent containing both substrings routes to the
Order Service. -/
theorem agent_C10_witness :
    service_router ("payment for order".toList) = "Order Service" :=
  (agent_C10 ("payment for order".toList)).1 (by decide) (by decide)

end Agent
